import Mathlib

/-!
Shallow embedding of pyFlowStat's TriSurface module (src/pyFlowStat/TriSurface.py).

Numbers are modelled as exact rationals (ℚ).  numpy arrays of shape (3,) and
(4,) become functions Fin 3 → ℚ and Fin 4 → ℚ; numpy 2-D arrays become
Mathlib matrices over ℚ; numeric tables become lists of rows.

Python exceptions are modelled with an explicit error type: a function that
can raise returns Except PyErr, and the mutating methods of the TriSurface
class return the (possibly partially updated) object together with an
Option PyErr, reflecting that in Python the attribute assignments performed
before an exception remain visible on the object.
-/

namespace PyFlowStat

/-- Python / numpy exception classes that the embedded code can raise:
IndexError (out-of-range indexing), numpy.linalg.LinAlgError for a singular
matrix in np.linalg.inv, and ValueError (ambiguous truth value of a
multi-element array). -/
inductive PyErr where
  | indexError
  | linAlgSingular
  | valueError
  deriving DecidableEq, Repr

abbrev Vec3 := Fin 3 → ℚ

abbrev Vec4 := Fin 4 → ℚ

abbrev Mat3 := Matrix (Fin 3) (Fin 3) ℚ

abbrev Mat4 := Matrix (Fin 4) (Fin 4) ℚ

/-- np.cross for 3-component vectors. -/
def cross (a b : Vec3) : Vec3 :=
  ![a 1 * b 2 - a 2 * b 1, a 2 * b 0 - a 0 * b 2, a 0 * b 1 - a 1 * b 0]

/-- TriSurface.affineVec: append a trailing 1 to a 3-vector
(source lines 288-301). -/
def affineVec (v : Vec3) : Vec4 := ![v 0, v 1, v 2, 1]

/-- TriSurface.affineMat: embed a 3x3 matrix as the linear part and a
3-vector as the translation column of a 4x4 affine matrix, with last row
(0,0,0,1) (source lines 304-321). -/
def affineMat (m : Mat3) (t : Vec3) : Mat4 :=
  Matrix.of ![![m 0 0, m 0 1, m 0 2, t 0],
              ![m 1 0, m 1 1, m 1 2, t 1],
              ![m 2 0, m 2 1, m 2 2, t 2],
              ![0, 0, 0, 1]]

/-- The view-basis matrix built in genTransData: columns are xViewBasis,
yViewBasis and zViewBasis = cross(xViewBasis, yViewBasis)
(source lines 265-269). -/
def viewBasisOf (xv yv : Vec3) : Mat3 :=
  Matrix.of ![![xv 0, yv 0, cross xv yv 0],
              ![xv 1, yv 1, cross xv yv 1],
              ![xv 2, yv 2, cross xv yv 2]]

/-- np.dot for 4-vectors. -/
def dot4 (a b : Vec4) : ℚ := a 0 * b 0 + a 1 * b 1 + a 2 * b 2 + a 3 * b 3

/-- TriSurface.genPlaneData (source lines 219-241): plane parameters
(a,b,c,d) from the first three points.  Accessing points[0], points[1],
points[2] raises IndexError when the list is too short. -/
def genPlaneData (points : List Vec3) : Except PyErr Vec4 :=
  match points.get? 0, points.get? 1, points.get? 2 with
  | some p0, some p1, some p2 =>
      let v1 : Vec3 := fun i => p1 i - p0 i
      let v2 : Vec3 := fun i => p2 i - p0 i
      let plNorm := cross v1 v2
      -- plDef = np.zeros(4); plDef[0:3] += plNorm; c = np.dot(plDef, affineVec(points[0]))
      let plDef0 : Vec4 := ![plNorm 0, plNorm 1, plNorm 2, 0]
      let c := dot4 plDef0 (affineVec p0)
      .ok ![plNorm 0, plNorm 1, plNorm 2, -c]
  | _, _, _ => .error .indexError

/-- Exact-arithmetic matrix inverse used to model np.linalg.inv on a
nonsingular matrix: det⁻¹ • adjugate. -/
def inv4 (A : Mat4) : Mat4 := A.det⁻¹ • A.adjugate

/-- np.linalg.inv: raises LinAlgError on a singular matrix, otherwise
returns the inverse (modelled exactly over ℚ). -/
def npLinalgInv (A : Mat4) : Except PyErr Mat4 :=
  if A.det = 0 then .error .linAlgSingular else .ok (inv4 A)

/-- TriSurface.genTransData (source lines 244-285).  The points argument of
the source is unused by the body and kept here for fidelity.  invT is the
affine matrix with the view basis as linear part and the anchor as
translation (translation = viewAnchor - np.zeros(3)); T = np.linalg.inv(invT). -/
def genTransData (_points : List Vec3) (viewAnchor xViewBasis yViewBasis : Vec3) :
    Except PyErr (Mat4 × Mat4 × Mat3) :=
  let viewBasis := viewBasisOf xViewBasis yViewBasis
  let translation := viewAnchor
  let invT := affineMat viewBasis translation
  match npLinalgInv invT with
  | .error e => .error e
  | .ok T => .ok (T, invT, viewBasis)

/-- Truth value of a numpy boolean array, as used by a Python if-statement:
a one-element array yields its element; any other size raises ValueError
(ambiguous truth value). -/
def npArrayTruth (bs : List Bool) : Except PyErr Bool :=
  match bs with
  | [b] => .ok b
  | _ => .error .valueError

/-- TriSurface.isColinear (source lines 324-331): evaluates
np.cross(vec1,vec2) == np.zeros(len(vec1)) elementwise and uses the result
as an if-condition. -/
def isColinear (vec1 vec2 : Vec3) : Except PyErr Bool :=
  let cmp := List.ofFn (fun i : Fin 3 => decide (cross vec1 vec2 i = 0))
  match npArrayTruth cmp with
  | .error e => .error e
  | .ok b => if b then .ok true else .ok false

/-- One text line of a foamFile, abstracted to what parseFoamFile inspects:
whether the raw line starts with the two-character comment marker, and the
list of numeric tokens the regex tokenizer extracts from it. -/
structure FoamLine where
  isComment : Bool
  nums : List ℚ
  deriving DecidableEq, Repr

/-- Loop state of parseFoamFile: rows collected so far and whether the
leading count line has been seen. -/
structure FoamState where
  output : List (List ℚ)
  catchFirstNb : Bool
  deriving DecidableEq, Repr

/-- One iteration of the parseFoamFile line loop (source lines 352-366).
The source's comment test is the statement "if line.startswith('//'):
pass", whose body is pass and which is NOT chained (by elif) to the
following if: it has no effect on the control flow, so a comment line
falls through to the numeric-token tests like any other line. -/
def foamStep (st : FoamState) (l : FoamLine) : FoamState :=
  if st.catchFirstNb = false ∧ l.nums.length = 1 then
    { st with catchFirstNb := true }
  else if st.catchFirstNb = true ∧ l.nums.length > 0 then
    { st with output := st.output ++ [l.nums] }
  else st

/-- parseFoamFile (source lines 335-368), over the list of lines of the
file.  Returns the collected rows. -/
def parseFoamFile (lines : List FoamLine) : List (List ℚ) :=
  (lines.foldl foamStep { output := [], catchFirstNb := false }).output

/-- The members of a TriSurface object set by __init__ (source lines
30-55).  The file-path string members varsFile/pointsFile/facesFile are
omitted: no claim concerns them.  None-initialised members are Options;
varRank is initialised to int() = 0. -/
structure Surface where
  storeMesh : Bool
  vars : Option (List (List ℚ))
  varRank : ℕ
  points : Option (List Vec3)
  xys : Option (List (ℚ × ℚ))
  faces : Option (List (List ℚ))
  plDef : Option Vec4
  viewAnchor : Option Vec3
  viewBasis : Option Mat3
  affMat : Option Mat4
  invAffMat : Option Mat4

/-- TriSurface.__init__(storeMesh). -/
def initSurface (storeMesh : Bool) : Surface :=
  { storeMesh := storeMesh, vars := none, varRank := 0, points := none,
    xys := none, faces := none, plDef := none, viewAnchor := none,
    viewBasis := none, affMat := none, invAffMat := none }

/-- The xys loop body (source lines 167-172): for each point, ptInB =
np.dot(affMat, affineVec(pt))[0:3]; xys row = ptInB[0:2].  The source first
computes the same product with a reshaped column vector and immediately
overwrites it; only the final assignment is modelled. -/
def xysOf (T : Mat4) (points : List Vec3) : List (ℚ × ℚ) :=
  points.map (fun p => ((T.mulVec (affineVec p)) 0, (T.mulVec (affineVec p)) 1))

/-- TriSurface.constructFromArray (source lines 118-178).  Returns the
updated object and the raised exception, if any; attribute assignments made
before the exception remain visible on the returned object.  The dimension
check of source lines 148-150 prints a message and then evaluates the bare
name exit without calling it, which does nothing, so construction continues
even when len(varsArray) != len(pointsArray). -/
def constructFromArray (s : Surface) (varsArray : List (List ℚ))
    (pointsArray : List Vec3) (facesArray : List (List ℚ))
    (viewAnchor xViewBasis yViewBasis : Vec3) : Surface × Option PyErr :=
  let s := { s with vars := some varsArray }
  -- self.varRank = len(self.vars[1,:]) : row index 1 must exist
  match varsArray.get? 1 with
  | none => (s, some .indexError)
  | some row1 =>
    let s := { s with varRank := row1.length }
    if s.storeMesh = true then
      let s := { s with points := some pointsArray, faces := some facesArray }
      match genPlaneData pointsArray with
      | .error e => (s, some e)
      | .ok pl =>
        let s := { s with plDef := some pl }
        let s := { s with viewAnchor := some viewAnchor }
        match genTransData pointsArray viewAnchor xViewBasis yViewBasis with
        | .error e => (s, some e)
        | .ok (T, invT, vb) =>
          let s := { s with affMat := some T, invAffMat := some invT,
                            viewBasis := some vb }
          ({ s with xys := some (xysOf T pointsArray) }, none)
    else
      -- points loaded transiently, not stored on the object
      match genPlaneData pointsArray with
      | .error e => (s, some e)
      | .ok pl =>
        let s := { s with plDef := some pl }
        let s := { s with viewAnchor := some viewAnchor }
        match genTransData pointsArray viewAnchor xViewBasis yViewBasis with
        | .error e => (s, some e)
        | .ok (T, invT, vb) =>
          ({ s with affMat := some T, invAffMat := some invT,
                    viewBasis := some vb }, none)

/-- Read a parsed row as a 3-D point (rows of the points table have 3
columns). -/
def rowToVec3 (r : List ℚ) : Vec3 := ![r.getD 0 0, r.getD 1 0, r.getD 2 0]

/-- TriSurface.readFromFoamFile (source lines 58-116), over the line lists
of the three input files.  Identical orchestration to constructFromArray,
except that the tables come from parseFoamFile and the faces table keeps
only columns 1..3 (the numpy slice [:,1:4]). -/
def readFromFoamFile (s : Surface) (varsLines pointsLines facesLines : List FoamLine)
    (viewAnchor xViewBasis yViewBasis : Vec3) : Surface × Option PyErr :=
  let s := { s with vars := some (parseFoamFile varsLines) }
  match (parseFoamFile varsLines).get? 1 with
  | none => (s, some .indexError)
  | some row1 =>
    let s := { s with varRank := row1.length }
    if s.storeMesh = true then
      let pts := (parseFoamFile pointsLines).map rowToVec3
      let s := { s with points := some pts,
                        faces := some ((parseFoamFile facesLines).map
                          (fun r => (r.drop 1).take 3)) }
      match genPlaneData pts with
      | .error e => (s, some e)
      | .ok pl =>
        let s := { s with plDef := some pl }
        let s := { s with viewAnchor := some viewAnchor }
        match genTransData pts viewAnchor xViewBasis yViewBasis with
        | .error e => (s, some e)
        | .ok (T, invT, vb) =>
          let s := { s with affMat := some T, invAffMat := some invT,
                            viewBasis := some vb }
          ({ s with xys := some (xysOf T pts) }, none)
    else
      let pts := (parseFoamFile pointsLines).map rowToVec3
      match genPlaneData pts with
      | .error e => (s, some e)
      | .ok pl =>
        let s := { s with plDef := some pl }
        let s := { s with viewAnchor := some viewAnchor }
        match genTransData pts viewAnchor xViewBasis yViewBasis with
        | .error e => (s, some e)
        | .ok (T, invT, vb) =>
          ({ s with affMat := some T, invAffMat := some invT,
                    viewBasis := some vb }, none)

/-- TriSurface.readFromVTK (source lines 182-216): the body is pass, so the
call returns None without touching the object and without raising. -/
def readFromVTK (s : Surface) (_vtkFile : String)
    (_viewAnchor _xViewBasis _yViewBasis : Vec3) : Surface × Option PyErr :=
  (s, none)

/-! ## Supporting lemmas -/

theorem det_affineMat (m : Mat3) (t : Vec3) : (affineMat m t).det = m.det := by
  simp [affineMat, Matrix.det_succ_row_zero, Fin.sum_univ_succ, Matrix.det_fin_three,
        Fin.succAbove, Fin.castSucc, Fin.castAdd, Fin.castLE, Fin.lt_def]

theorem inv4_mul (A : Mat4) (h : A.det ≠ 0) : inv4 A * A = 1 := by
  rw [inv4, Matrix.smul_mul, Matrix.adjugate_mul, smul_smul, inv_mul_cancel₀ h, one_smul]

theorem mul_inv4 (A : Mat4) (h : A.det ≠ 0) : A * inv4 A = 1 := by
  rw [inv4, Matrix.mul_smul, Matrix.mul_adjugate, smul_smul, inv_mul_cancel₀ h, one_smul]

theorem genTransData_ok (points : List Vec3) (anchor xv yv : Vec3)
    (h : (viewBasisOf xv yv).det ≠ 0) :
    genTransData points anchor xv yv =
      .ok (inv4 (affineMat (viewBasisOf xv yv) anchor),
           affineMat (viewBasisOf xv yv) anchor, viewBasisOf xv yv) := by
  have hd : (affineMat (viewBasisOf xv yv) anchor).det ≠ 0 := by
    rw [det_affineMat]; exact h
  unfold genTransData npLinalgInv
  simp only [if_neg hd]

theorem cross_smul_self (c : ℚ) (x : Vec3) : cross x (c • x) = 0 := by
  funext i
  fin_cases i <;> simp [cross, Matrix.vecHead, Matrix.vecTail] <;> ring

theorem cross_smul_self' (c : ℚ) (x : Vec3) : cross (c • x) x = 0 := by
  funext i
  fin_cases i <;> simp [cross, Matrix.vecHead, Matrix.vecTail] <;> ring

theorem genTransData_crossZero (points : List Vec3) (anchor xv yv : Vec3)
    (h : cross xv yv = 0) :
    genTransData points anchor xv yv = .error .linAlgSingular := by
  have hz : (affineMat (viewBasisOf xv yv) anchor).det = 0 := by
    apply Matrix.det_eq_zero_of_column_eq_zero 2
    intro i
    fin_cases i <;>
      simp [affineMat, viewBasisOf, h, Matrix.vecHead, Matrix.vecTail]
  unfold genTransData npLinalgInv
  simp only [if_pos hz]

theorem genPlaneData_isOk (points : List Vec3) (h : 3 ≤ points.length) :
    ∃ pl, genPlaneData points = .ok pl := by
  match points, h with
  | p0 :: p1 :: p2 :: rest, _ => exact ⟨_, rfl⟩

theorem inv4_one : inv4 (1 : Mat4) = 1 := by
  rw [inv4, Matrix.det_one, Matrix.adjugate_one, inv_one, one_smul]

theorem viewBasis_std : viewBasisOf ![1,0,0] ![0,1,0] = 1 := by
  ext i j
  fin_cases i <;> fin_cases j <;>
    simp [viewBasisOf, cross, Matrix.vecHead, Matrix.vecTail]

theorem affineMat_one_zero : affineMat 1 ![0,0,0] = 1 := by
  ext i j
  fin_cases i <;> fin_cases j <;>
    simp [affineMat, Matrix.vecHead, Matrix.vecTail]

theorem genTransData_std (pts : List Vec3) :
    genTransData pts ![0,0,0] ![1,0,0] ![0,1,0] = .ok (1, 1, 1) := by
  have h : (viewBasisOf ![1,0,0] ![0,1,0]).det ≠ 0 := by
    rw [viewBasis_std, Matrix.det_one]; norm_num
  rw [genTransData_ok pts _ _ _ h, viewBasis_std, affineMat_one_zero, inv4_one]

theorem genPlaneData_std :
    genPlaneData [![0,0,0],![1,0,0],![0,1,0]] = .ok ![0,0,1,0] := by
  show Except.ok _ = _
  norm_num [genPlaneData, cross, dot4, affineVec]

theorem xysOf_one_std :
    xysOf 1 [![0,0,0],![1,0,0],![0,1,0]] = [(0,0),(1,0),(0,1)] := by
  simp [xysOf, Matrix.one_mulVec, affineVec]

theorem constructFromArray_shortVars (s : Surface) (varsArray : List (List ℚ))
    (pointsArray : List Vec3) (facesArray : List (List ℚ)) (anchor xv yv : Vec3)
    (h : varsArray.length < 2) :
    (constructFromArray s varsArray pointsArray facesArray anchor xv yv).2 =
      some .indexError := by
  have h1 : varsArray.get? 1 = none := by
    rw [List.get?_eq_none]; omega
  unfold constructFromArray
  simp only [h1]

theorem readFromFoamFile_shortVars (s : Surface)
    (varsLines pointsLines facesLines : List FoamLine) (anchor xv yv : Vec3)
    (h : (parseFoamFile varsLines).length < 2) :
    (readFromFoamFile s varsLines pointsLines facesLines anchor xv yv).2 =
      some .indexError := by
  have h1 : (parseFoamFile varsLines).get? 1 = none := by
    rw [List.get?_eq_none]; omega
  unfold readFromFoamFile
  simp only [h1]

theorem constructFromArray_varRank (s : Surface) (varsArray : List (List ℚ))
    (pointsArray : List Vec3) (facesArray : List (List ℚ)) (anchor xv yv : Vec3)
    (row1 : List ℚ) (hv : varsArray.get? 1 = some row1) :
    (constructFromArray s varsArray pointsArray facesArray anchor xv yv).1.varRank =
      row1.length := by
  unfold constructFromArray
  simp only [hv]
  split
  · split
    · rfl
    · split
      · rfl
      · rfl
  · split
    · rfl
    · split
      · rfl
      · rfl

theorem constructFromArray_crossZero (s : Surface) (varsArray : List (List ℚ))
    (pointsArray : List Vec3) (facesArray : List (List ℚ)) (anchor xv yv : Vec3)
    (row1 : List ℚ) (hsm : s.storeMesh = true) (hv : varsArray.get? 1 = some row1)
    (hp : 3 ≤ pointsArray.length) (hx : cross xv yv = 0) :
    ∃ pl, genPlaneData pointsArray = .ok pl ∧
      constructFromArray s varsArray pointsArray facesArray anchor xv yv =
        ({ s with vars := some varsArray, varRank := row1.length,
                  points := some pointsArray, faces := some facesArray,
                  plDef := some pl, viewAnchor := some anchor },
         some .linAlgSingular) := by
  obtain ⟨pl, hpl⟩ := genPlaneData_isOk pointsArray hp
  refine ⟨pl, hpl, ?_⟩
  unfold constructFromArray
  simp only [hv, hsm, hpl, genTransData_crossZero _ _ _ _ hx, if_true]

/-! ## Claim theorems -/

/-- C1: the claim says a vars/points length mismatch makes constructFromArray
fail with DimensionMismatchError without completing construction.  The code
only prints a message and evaluates the bare name exit (a no-op): here a
mismatched call (4 field rows, 3 points) completes construction fully, with
no error and with the view coordinates computed. -/
theorem c1_mismatch_construction_completes :
    (constructFromArray (initSurface true) [[1],[2],[3],[4]]
      [![0,0,0],![1,0,0],![0,1,0]] [[3,0,1,2]] ![0,0,0] ![1,0,0] ![0,1,0]).2 = none ∧
    (constructFromArray (initSurface true) [[1],[2],[3],[4]]
      [![0,0,0],![1,0,0],![0,1,0]] [[3,0,1,2]] ![0,0,0] ![1,0,0] ![0,1,0]).1.xys =
      some [(0,0),(1,0),(0,1)] := by
  refine ⟨?_, ?_⟩ <;>
    (unfold constructFromArray
     simp [initSurface, genPlaneData_std, genTransData_std, xysOf_one_std])

/-- C2 counterexample: on the collinear points (0,0,0),(1,0,0),(2,0,0) the
claim says genPlaneData raises DegeneratePlaneError; the code instead
returns the zero-normal equation (0,0,0,0) successfully. -/
theorem c2_collinear_returns_zero_normal :
    genPlaneData [![0,0,0],![1,0,0],![2,0,0]] = .ok ![0,0,0,0] := by
  show Except.ok _ = _
  norm_num [genPlaneData, cross, dot4, affineVec]

/-- C2 amended: for every list of at least 3 points whose first three points
are collinear, genPlaneData does not raise; it returns the zero-normal
equation (a,b,c,d) = (0,0,0,0). -/
theorem c2_amended_collinear_zero_normal (p0 p1 p2 : Vec3) (rest : List Vec3)
    (h : cross (fun i => p1 i - p0 i) (fun i => p2 i - p0 i) = 0) :
    genPlaneData (p0 :: p1 :: p2 :: rest) = .ok ![0,0,0,0] := by
  unfold genPlaneData
  simp [h, dot4, affineVec]

/-- C2 amended, witness at the collinear points (0,0,0),(1,0,0),(2,0,0). -/
theorem c2_amended_collinear_zero_normal_witness :
    (cross (fun i => (![1,0,0] : Vec3) i - (![0,0,0] : Vec3) i)
      (fun i => (![2,0,0] : Vec3) i - (![0,0,0] : Vec3) i) = 0) ∧
    genPlaneData [![0,0,0],![1,0,0],![2,0,0]] = .ok ![0,0,0,0] := by
  have h : cross (fun i => (![1,0,0] : Vec3) i - (![0,0,0] : Vec3) i)
      (fun i => (![2,0,0] : Vec3) i - (![0,0,0] : Vec3) i) = 0 := by
    funext i
    fin_cases i <;> simp [cross, Matrix.vecHead, Matrix.vecTail]
  exact ⟨h, c2_amended_collinear_zero_normal ![0,0,0] ![1,0,0] ![2,0,0] [] h⟩

/-- C3: for every anchor and every pair of direction vectors whose basis
matrix [xDir, yDir, xDir x yDir] is invertible, genTransData returns a pair
(T, invT) with T * invT = Identity, and applying T then invT to the
homogeneous coordinates of any point returns them exactly (exact rational
arithmetic, hence within any stated tolerance). -/
theorem c3_roundtrip (points : List Vec3) (anchor xv yv : Vec3)
    (h : (viewBasisOf xv yv).det ≠ 0) :
    ∃ T invT vb, genTransData points anchor xv yv = .ok (T, invT, vb) ∧
      T * invT = 1 ∧ ∀ p : Vec3, invT.mulVec (T.mulVec (affineVec p)) = affineVec p := by
  have hd : (affineMat (viewBasisOf xv yv) anchor).det ≠ 0 := by
    rw [det_affineMat]; exact h
  refine ⟨_, _, _, genTransData_ok points anchor xv yv h, inv4_mul _ hd, fun p => ?_⟩
  rw [Matrix.mulVec_mulVec, mul_inv4 _ hd, Matrix.one_mulVec]

/-- C3 witness at anchor (0,0,0), xDir = e1, yDir = e2. -/
theorem c3_roundtrip_witness :
    (viewBasisOf ![1,0,0] ![0,1,0]).det ≠ 0 ∧
    (∃ T invT vb, genTransData [] ![0,0,0] ![1,0,0] ![0,1,0] = .ok (T, invT, vb) ∧
      T * invT = 1 ∧ ∀ p : Vec3, invT.mulVec (T.mulVec (affineVec p)) = affineVec p) := by
  have h : (viewBasisOf ![1,0,0] ![0,1,0]).det ≠ 0 := by
    rw [viewBasis_std, Matrix.det_one]; norm_num
  exact ⟨h, c3_roundtrip [] ![0,0,0] ![1,0,0] ![0,1,0] h⟩

/-- C4: the claim says a line starting with the comment marker is always
skipped by parseFoamFile.  The source's comment test has a pass body and no
continue, so it does nothing: a comment line carrying three numeric tokens
after the count line is appended as a data row ([[1,2,3]] instead of []),
and a comment line carrying one numeric token before the count line is
consumed as the leading count line (so the following two-token line is
parsed as data, [[2,3]] instead of []). -/
theorem c4_comment_lines_not_skipped :
    parseFoamFile [⟨false, [5]⟩, ⟨true, [1,2,3]⟩] = [[1,2,3]] ∧
    parseFoamFile [⟨true, [1]⟩, ⟨false, [2,3]⟩] = [[2,3]] :=
  ⟨by decide, by decide⟩

/-- C5 counterexample: the claim says every readFromVTK invocation fails
with an UnsupportedFormatError-like condition; the code's body is pass, so
on a freshly initialised surface it returns with no error and leaves the
object unmodified. -/
theorem c5_readFromVTK_returns_silently :
    readFromVTK (initSurface true) "surface.vtk" ![0,0,0] ![1,0,0] ![0,1,0] =
      (initSurface true, none) := rfl

/-- C5 amended: every invocation of readFromVTK returns silently with no
error and leaves the Surface unmodified. -/
theorem c5_amended_readFromVTK_noop (s : Surface) (vtkFile : String)
    (anchor xv yv : Vec3) : readFromVTK s vtkFile anchor xv yv = (s, none) := rfl

/-- C6: for points (0,0,0),(1,0,0),(0,1,0), anchor (0,0,0), xDir e1,
yDir e2, construction with mesh retained completes and yields plane
equation (a,b,c,d) = (0,0,1,0) and view coordinates [(0,0),(1,0),(0,1)]. -/
theorem c6_concrete_scenario :
    (constructFromArray (initSurface true) [[1],[2],[3]]
      [![0,0,0],![1,0,0],![0,1,0]] [[3,0,1,2]] ![0,0,0] ![1,0,0] ![0,1,0]).2 = none ∧
    (constructFromArray (initSurface true) [[1],[2],[3]]
      [![0,0,0],![1,0,0],![0,1,0]] [[3,0,1,2]] ![0,0,0] ![1,0,0] ![0,1,0]).1.plDef =
      some ![0,0,1,0] ∧
    (constructFromArray (initSurface true) [[1],[2],[3]]
      [![0,0,0],![1,0,0],![0,1,0]] [[3,0,1,2]] ![0,0,0] ![1,0,0] ![0,1,0]).1.xys =
      some [(0,0),(1,0),(0,1)] := by
  refine ⟨?_, ?_, ?_⟩ <;>
    (unfold constructFromArray
     simp [initSurface, genPlaneData_std, genTransData_std, xysOf_one_std])

/-- C7: for every anchor and every pair of direction vectors that are
collinear (one a scalar multiple of the other, which covers the zero
vector), the basis matrix is singular and genTransData fails with the
singular-matrix error raised by matrix inversion; it never returns a
transform. -/
theorem c7_singular_basis_error (points : List Vec3) (anchor xv yv : Vec3)
    (h : (∃ c : ℚ, yv = c • xv) ∨ (∃ c : ℚ, xv = c • yv)) :
    genTransData points anchor xv yv = .error .linAlgSingular := by
  apply genTransData_crossZero
  rcases h with ⟨c, rfl⟩ | ⟨c, rfl⟩
  · exact cross_smul_self c xv
  · exact cross_smul_self' c yv

/-- C7 witness at xDir = (1,0,0), yDir = (2,0,0). -/
theorem c7_singular_basis_error_witness :
    ((∃ c : ℚ, (![2,0,0] : Vec3) = c • ![1,0,0]) ∨
      (∃ c : ℚ, (![1,0,0] : Vec3) = c • ![2,0,0])) ∧
    genTransData [] ![0,0,0] ![1,0,0] ![2,0,0] = .error .linAlgSingular := by
  have h : (∃ c : ℚ, (![2,0,0] : Vec3) = c • ![1,0,0]) ∨
      (∃ c : ℚ, (![1,0,0] : Vec3) = c • ![2,0,0]) := by
    refine Or.inl ⟨2, ?_⟩
    funext i
    fin_cases i <;> simp [Matrix.vecHead, Matrix.vecTail]
  exact ⟨h, c7_singular_basis_error [] ![0,0,0] ![1,0,0] ![2,0,0] h⟩

/-- C8 counterexample: the claim says a failing construction call leaves no
partial derived state observable.  Constructing from arrays with a valid
mesh but collinear view directions raises the singular-matrix error, yet
the returned object has vars, points, plDef and viewAnchor established
while affMat and xys are still unset. -/
theorem c8_error_leaves_state :
    (constructFromArray (initSurface true) [[1],[2],[3]]
      [![0,0,0],![1,0,0],![0,1,0]] [[3,0,1,2]] ![0,0,0] ![1,0,0] ![2,0,0]).2 =
      some .linAlgSingular ∧
    (constructFromArray (initSurface true) [[1],[2],[3]]
      [![0,0,0],![1,0,0],![0,1,0]] [[3,0,1,2]] ![0,0,0] ![1,0,0] ![2,0,0]).1.vars =
      some [[1],[2],[3]] ∧
    (constructFromArray (initSurface true) [[1],[2],[3]]
      [![0,0,0],![1,0,0],![0,1,0]] [[3,0,1,2]] ![0,0,0] ![1,0,0] ![2,0,0]).1.viewAnchor =
      some ![0,0,0] ∧
    (constructFromArray (initSurface true) [[1],[2],[3]]
      [![0,0,0],![1,0,0],![0,1,0]] [[3,0,1,2]] ![0,0,0] ![1,0,0] ![2,0,0]).1.affMat =
      none ∧
    (constructFromArray (initSurface true) [[1],[2],[3]]
      [![0,0,0],![1,0,0],![0,1,0]] [[3,0,1,2]] ![0,0,0] ![1,0,0] ![2,0,0]).1.xys =
      none := by
  have hx : cross ![1,0,0] ![2,0,0] = (0 : Vec3) := by
    funext i
    fin_cases i <;> simp [cross, Matrix.vecHead, Matrix.vecTail]
  obtain ⟨pl, hpl, heq⟩ := constructFromArray_crossZero (initSurface true)
    [[1],[2],[3]] [![0,0,0],![1,0,0],![0,1,0]] [[3,0,1,2]] ![0,0,0] ![1,0,0] ![2,0,0]
    [2] rfl rfl (by norm_num) hx
  rw [heq]
  exact ⟨rfl, rfl, rfl, rfl, rfl⟩

/-- C8 amended: a failing constructFromArray call is not atomic.  When the
mesh is stored, the vars table has a row 1 and the points admit a plane but
the view directions are collinear, the call raises the singular-matrix
error and returns with vars, varRank, points, faces, plDef and viewAnchor
newly established, while viewBasis, affMat, invAffMat and xys keep their
prior values. -/
theorem c8_amended_no_rollback (s : Surface) (varsArray : List (List ℚ))
    (pointsArray : List Vec3) (facesArray : List (List ℚ)) (anchor xv yv : Vec3)
    (row1 : List ℚ) (hsm : s.storeMesh = true) (hv : varsArray.get? 1 = some row1)
    (hp : 3 ≤ pointsArray.length) (hx : cross xv yv = 0) :
    (constructFromArray s varsArray pointsArray facesArray anchor xv yv).2 =
      some .linAlgSingular ∧
    (constructFromArray s varsArray pointsArray facesArray anchor xv yv).1.vars =
      some varsArray ∧
    (constructFromArray s varsArray pointsArray facesArray anchor xv yv).1.varRank =
      row1.length ∧
    (constructFromArray s varsArray pointsArray facesArray anchor xv yv).1.points =
      some pointsArray ∧
    (constructFromArray s varsArray pointsArray facesArray anchor xv yv).1.faces =
      some facesArray ∧
    (constructFromArray s varsArray pointsArray facesArray anchor xv yv).1.plDef ≠
      none ∧
    (constructFromArray s varsArray pointsArray facesArray anchor xv yv).1.viewAnchor =
      some anchor ∧
    (constructFromArray s varsArray pointsArray facesArray anchor xv yv).1.viewBasis =
      s.viewBasis ∧
    (constructFromArray s varsArray pointsArray facesArray anchor xv yv).1.affMat =
      s.affMat ∧
    (constructFromArray s varsArray pointsArray facesArray anchor xv yv).1.invAffMat =
      s.invAffMat ∧
    (constructFromArray s varsArray pointsArray facesArray anchor xv yv).1.xys =
      s.xys := by
  obtain ⟨pl, hpl, heq⟩ := constructFromArray_crossZero s varsArray pointsArray
    facesArray anchor xv yv row1 hsm hv hp hx
  rw [heq]
  exact ⟨rfl, rfl, rfl, rfl, rfl, by simp, rfl, rfl, rfl, rfl, rfl⟩

/-- C8 amended, witness on a fresh surface with collinear view directions. -/
theorem c8_amended_no_rollback_witness :
    ((initSurface true).storeMesh = true ∧
      [[1],[2],[3]].get? 1 = some [(2 : ℚ)] ∧
      3 ≤ [![0,0,0],![1,0,0],![0,1,0]].length ∧
      cross ![1,0,0] ![2,0,0] = (0 : Vec3)) ∧
    (constructFromArray (initSurface true) [[1],[2],[3]]
      [![0,0,0],![1,0,0],![0,1,0]] [[4,0,1,2]] ![0,0,0] ![1,0,0] ![2,0,0]).2 =
      some .linAlgSingular ∧
    (constructFromArray (initSurface true) [[1],[2],[3]]
      [![0,0,0],![1,0,0],![0,1,0]] [[4,0,1,2]] ![0,0,0] ![1,0,0] ![2,0,0]).1.varRank =
      [(2 : ℚ)].length := by
  have hx : cross ![1,0,0] ![2,0,0] = (0 : Vec3) := by
    funext i
    fin_cases i <;> simp [cross, Matrix.vecHead, Matrix.vecTail]
  have main := c8_amended_no_rollback (initSurface true) [[1],[2],[3]]
    [![0,0,0],![1,0,0],![0,1,0]] [[4,0,1,2]] ![0,0,0] ![1,0,0] ![2,0,0]
    [2] rfl rfl (by norm_num) hx
  exact ⟨⟨rfl, rfl, by norm_num, hx⟩, main.1, main.2.2.1⟩

/-- C9: both construction paths read varRank from row index 1 of the loaded
vars table, so whenever that table has fewer than 2 rows the call fails
with IndexError, regardless of the remaining inputs. -/
theorem c9_varRank_needs_two_rows (s t : Surface) (varsArray : List (List ℚ))
    (pointsArray : List Vec3) (facesArray : List (List ℚ))
    (varsLines pointsLines facesLines : List FoamLine) (anchor xv yv : Vec3)
    (h1 : varsArray.length < 2) (h2 : (parseFoamFile varsLines).length < 2) :
    (constructFromArray s varsArray pointsArray facesArray anchor xv yv).2 =
      some .indexError ∧
    (readFromFoamFile t varsLines pointsLines facesLines anchor xv yv).2 =
      some .indexError :=
  ⟨constructFromArray_shortVars s varsArray pointsArray facesArray anchor xv yv h1,
   readFromFoamFile_shortVars t varsLines pointsLines facesLines anchor xv yv h2⟩

/-- C9 witness: a single-row vars table (one scalar sample, with an
otherwise valid 3-point mesh) makes both construction paths fail. -/
theorem c9_varRank_needs_two_rows_witness :
    ([[(7 : ℚ)]].length < 2 ∧ (parseFoamFile [⟨false, [7]⟩]).length < 2) ∧
    (constructFromArray (initSurface true) [[7]]
      [![0,0,0],![1,0,0],![0,1,0]] [[3,0,1,2]] ![0,0,0] ![1,0,0] ![0,1,0]).2 =
      some .indexError ∧
    (readFromFoamFile (initSurface true) [⟨false, [7]⟩] [] []
      ![0,0,0] ![1,0,0] ![0,1,0]).2 = some .indexError := by
  have main := c9_varRank_needs_two_rows (initSurface true) (initSurface true)
    [[7]] [![0,0,0],![1,0,0],![0,1,0]] [[3,0,1,2]] [⟨false, [7]⟩] [] []
    ![0,0,0] ![1,0,0] ![0,1,0] (by decide) (by decide)
  exact ⟨⟨by decide, by decide⟩, main⟩

/-- C10: for every pair of 3-component vectors, isColinear evaluates a
3-element boolean array as an if-condition, which raises ValueError
(ambiguous truth value); it never returns True or False. -/
theorem c10_isColinear_raises (vec1 vec2 : Vec3) :
    isColinear vec1 vec2 = .error .valueError := rfl

end PyFlowStat
